import Mathlib

/-!
Shallow embedding of the weatherBot source (src/bot.py) for verification.

Network and clock effects are modelled as an `Env` of oracles fixed for one
message-handling step: `current` and `forecast` are the provider responses,
`dateOf` models `datetime.fromtimestamp(..).strftime("%Y-%m-%d")`, `nowTs`
models `datetime.now().isoformat()` and `yesterday` models
`(datetime.now().date() - timedelta(days=1)).isoformat()`.

The Telegram transport is out of scope: replies are collected as strings,
keyboard markups are dropped.  `handle_message` only ever reads and writes
the record of the sending user, so the persistent store is modelled as that
single user's record.  Temperatures are rationals; the one-decimal float
formatting is modelled by `fmt1` (the rounding of unrepresentable binary
floats is not reproduced — no claim depends on rendered digits), and
Python's `str.capitalize` by an ASCII-only case map (no claim depends on
letter case).
-/

/-- Conversation state tags stored in `context.user_data["state"]` (src/bot.py). -/
inductive StateTag
  | set_default_city
  | enter_city
  | choose_city_source
  | choose_weather_type
  | compare_cities
deriving DecidableEq, Repr

/-- Per-session transient data: `context.user_data` (keys "state" and "temp_city");
`none`/`none` is the cleared dictionary. -/
structure Session where
  state : Option StateTag
  temp_city : Option String
deriving DecidableEq, Repr

/-- One history entry appended by add_to_history (src/bot.py:61-72). -/
structure HistoryRecord where
  city : String
  temp : ℚ
  desc : String
  timestamp : String
deriving DecidableEq, Repr

/-- A user's entry in user_data_storage (src/bot.py:31). -/
structure UserRecord where
  default_city : Option String
  history : List HistoryRecord
deriving DecidableEq, Repr

/-- The provider fields read by get_weather_now (src/bot.py:84-91). -/
structure ProviderCurrent where
  temp : ℚ
  feels_like : ℚ
  desc : String
  humidity : Int
  wind_speed : ℚ
deriving DecidableEq, Repr

/-- The dict built by get_weather_now (src/bot.py:84-91); `city` echoes the input. -/
structure WeatherData where
  city : String
  temp : ℚ
  feels_like : ℚ
  desc : String
  humidity : Int
  wind_speed : ℚ
deriving DecidableEq, Repr

/-- One timestamped entry of the provider forecast `list` (src/bot.py:104-110). -/
structure ForecastItem where
  dt : Nat
  temp : ℚ
  desc : String
deriving DecidableEq, Repr

/-- One bucketed forecast day (src/bot.py:107-111). -/
structure ForecastDay where
  date : String
  temp : ℚ
  desc : String
deriving DecidableEq, Repr

/-- get_weather_now (src/bot.py:77-94): all request failures fold into `none`;
on success the returned dict echoes the requested city string. -/
def get_weather_now (resp : Option ProviderCurrent) (city : String) : Option WeatherData :=
  match resp with
  | none => none
  | some r => some ⟨city, r.temp, r.feels_like, r.desc, r.humidity, r.wind_speed⟩

/-- The `for item in data["list"]` loop of get_5_day_forecast (src/bot.py:103-113):
the `days` dict is an insertion-ordered list keyed by `date`; the loop breaks
as soon as 5 distinct days are collected. -/
def forecastLoop (dateOf : Nat → String) :
    List ForecastItem → List ForecastDay → List ForecastDay
  | [], days => days
  | item :: rest, days =>
    let date := dateOf item.dt
    let days1 := if days.any (fun d => d.date == date) then days
                 else days ++ [⟨date, item.temp, item.desc⟩]
    if 5 ≤ days1.length then days1 else forecastLoop dateOf rest days1

/-- get_5_day_forecast (src/bot.py:96-117): `none` on provider failure, else the
bucketed days truncated to 5 (`list(days.values())[:5]`). -/
def get_5_day_forecast (dateOf : Nat → String) (resp : Option (List ForecastItem)) :
    Option (List ForecastDay) :=
  match resp with
  | none => none
  | some items => some ((forecastLoop dateOf items []).take 5)

/-- Checks that the second character list starts with the first. -/
def matchesAt : List Char → List Char → Bool
  | [], _ => true
  | _ :: _, [] => false
  | a :: as, b :: bs => a == b && matchesAt as bs

/-- Contiguous occurrence of `needle` anywhere in the list. -/
def subOccurs (needle : List Char) : List Char → Bool
  | [] => matchesAt needle []
  | b :: bs => matchesAt needle (b :: bs) || subOccurs needle bs

/-- Python `needle in hay` on strings. -/
def strIn (needle hay : String) : Bool :=
  subOccurs needle.toList hay.toList

/-- Python `hay.startswith(needle)` on strings. -/
def strStarts (needle hay : String) : Bool :=
  matchesAt needle.toList hay.toList

/-- Drops leading whitespace characters. -/
def dropLeadWs : List Char → List Char
  | [] => []
  | c :: rest => if c.isWhitespace then dropLeadWs rest else c :: rest

/-- Python str.strip(): removes leading and trailing whitespace. -/
def pyStrip (s : String) : String :=
  String.mk ((dropLeadWs (dropLeadWs s.toList).reverse).reverse)

/-- Worker for `pySplit`; `cur` holds the current token reversed. -/
def wsSplit (cur : List Char) : List Char → List String
  | [] => if cur.isEmpty then [] else [String.mk cur.reverse]
  | c :: rest =>
    if c.isWhitespace then
      if cur.isEmpty then wsSplit [] rest
      else String.mk cur.reverse :: wsSplit [] rest
    else wsSplit (c :: cur) rest

/-- Python str.split() with no argument: splits on whitespace runs, never
producing empty tokens. -/
def pySplit (s : String) : List String :=
  wsSplit [] s.toList

/-- Lexicographic order on character lists. -/
def charListLe : List Char → List Char → Bool
  | [], _ => true
  | _ :: _, [] => false
  | a :: as, b :: bs => if a < b then true else if a == b then charListLe as bs else false

/-- Lexicographic string order; on equal-format ISO-8601 timestamps this is
chronological order. -/
def tsLe (a b : String) : Bool :=
  charListLe a.toList b.toList

/-- The match condition of get_yesterday_weather (src/bot.py:123): exact city
equality and timestamp starting with yesterday's date. -/
def yMatch (yesterday city : String) (r : HistoryRecord) : Bool :=
  r.city == city && strStarts yesterday r.timestamp

/-- get_yesterday_weather (src/bot.py:119-125): scan the history in reverse,
return the first matching record, else `None`. -/
def get_yesterday_weather (yesterday : String) (history : List HistoryRecord)
    (city : String) : Option HistoryRecord :=
  history.reverse.find? (yMatch yesterday city)

/-- Python str.capitalize, with ASCII-only case mapping (Char.toUpper leaves
Cyrillic unchanged; no claim depends on letter case). -/
def pyCapitalize (s : String) : String :=
  match s.toList with
  | [] => ""
  | c :: rest => String.mk (c.toUpper :: rest.map Char.toLower)

/-- Tenths of `q`, rounded half up: the integer `⌊10q + 1/2⌋`, written with
integer arithmetic on the numerator and denominator. -/
def tenths (q : ℚ) : Int :=
  Int.fdiv (20 * q.num + (q.den : Int)) (2 * (q.den : Int))

/-- Renders a rational to one decimal place, modelling the Python `.1f` format. -/
def fmt1 (q : ℚ) : String :=
  let n : Int := tenths q
  (if n < 0 then "-" else "") ++ toString (n.natAbs / 10) ++ "." ++ toString (n.natAbs % 10)

/-- Renders a rational to one decimal place with an explicit sign (`+.1f`). -/
def fmt1Signed (q : ℚ) : String :=
  let n : Int := tenths q
  (if n < 0 then "-" else "+") ++ toString (n.natAbs / 10) ++ "." ++ toString (n.natAbs % 10)

def adviceLight : String := "Наденьте лёгкую одежду."
def adviceLightJacket : String := "Тёплая одежда не требуется, но возьмите лёгкую куртку."
def adviceCoat : String := "Рекомендуется куртка или пальто."
def adviceWarmCoat : String := "Обязательно наденьте тёплую куртку, шапку и перчатки."
def adviceSevere : String := "Очень холодно! Теплое пальто, шапка, шарф, перчатки — обязательно."
def adviceRain : String := "Возьмите зонт и наденьте непромокаемую обувь."
def adviceSnow : String := "Наденьте непромокаемую обувь и тёплую одежду."

/-- The temperature if/elif chain of format_now_message (src/bot.py:136-145). -/
def adviceTemp (t : ℚ) : String :=
  if 25 ≤ t then adviceLight
  else if 15 ≤ t then adviceLightJacket
  else if 5 ≤ t then adviceCoat
  else if -5 ≤ t then adviceWarmCoat
  else adviceSevere

/-- The precipitation if/elif of format_now_message (src/bot.py:146-149). -/
def advicePrecip (desc : String) : List String :=
  if strIn "дождь" desc || strIn "ливень" desc then [adviceRain]
  else if strIn "снег" desc then [adviceSnow]
  else []

/-- The advice list assembled by format_now_message (src/bot.py:134-149): one
temperature clause, then at most one precipitation clause. -/
def adviceList (t : ℚ) (desc : String) : List String :=
  adviceTemp t :: advicePrecip desc

/-- format_now_message (src/bot.py:127-156). -/
def format_now_message (d : WeatherData) : String :=
  "🌤 <b>" ++ d.city ++ "</b>\n" ++
  "Температура: " ++ fmt1 d.temp ++ "°C (ощущается как " ++ fmt1 d.feels_like ++ "°C)\n" ++
  "Описание: " ++ pyCapitalize d.desc ++ "\n" ++
  "Влажность: " ++ toString d.humidity ++ "%, Ветер: " ++ toString d.wind_speed ++ " м/с\n\n" ++
  "💡 <i>" ++ String.intercalate " " (adviceList d.temp d.desc) ++ "</i>"

/-- Reformats a "YYYY-MM-DD" date as "DD.MM" (src/bot.py:161). -/
def ddmm (s : String) : String :=
  String.mk (s.toList.drop 8) ++ "." ++ String.mk ((s.toList.drop 5).take 2)

/-- format_forecast_message (src/bot.py:158-164). -/
def format_forecast_message (city : String) (days : List ForecastDay) : String :=
  String.intercalate "\n"
    (("📅 <b>Прогноз на 5 дней — " ++ city ++ "</b>") ::
     days.map (fun d => "• " ++ ddmm d.date ++ ": " ++ fmt1 d.temp ++ "°C, " ++ pyCapitalize d.desc) ++
     ["\n💡 Одевайтесь по погоде!"])

/-- The effect environment of one message-handling step: provider responses and
the clock readings, all fixed for the duration of the step. -/
structure Env where
  current : String → Option ProviderCurrent
  forecast : String → Option (List ForecastItem)
  dateOf : Nat → String
  nowTs : String
  yesterday : String

/-- A record of the weather-data operations a step performed. -/
inductive ApiCall
  | weatherNow (city : String)
  | forecastReq (city : String)
  | yesterdayLookup (city : String)
deriving DecidableEq, Repr

/-- The outcome of handling one incoming message: the next session, the (sender's)
updated store record, the replies sent, and the weather-data operations performed. -/
structure StepResult where
  session : Session
  record : UserRecord
  replies : List String
  calls : List ApiCall
deriving DecidableEq, Repr

def msgMenu : String := "Выберите действие:"
def msgStart : String := "Привет! Выберите действие:"
def msgUnknown : String := "❓ Используйте меню или /start."
def msgCityNotFound : String := "❌ Город не найден. Попробуйте снова."
def msgEnterCity : String := "Введите город:"
def msgEnterDefaultCity : String := "Введите город для установки по умолчанию:"
def msgEnterTwoCities : String := "Введите два города через пробел (например: Москва Сочи):"
def msgExactlyTwo : String := "Введите ровно два города через пробел."
def msgOneNotFound : String := "❌ Один из городов не найден."
def msgNoCity : String := "❌ Ошибка: город не задан."
def msgWeatherFail : String := "❌ Не удалось получить погоду."
def msgForecastFail : String := "❌ Не удалось получить прогноз."
def msgChooseFromMenu : String := "Выберите из меню."
def msgNoDefault : String := "❌ Город по умолчанию не установлен."
def msgArchiveEmpty : String :=
  "📂 Вчерашняя погода не найдена в архиве.\nЗапрашивайте погоду ежедневно, чтобы она сохранялась!"
def msgHistoryEmpty : String := "📊 История пуста."
def msgNothingToExport : String := "📭 Нет данных для экспорта."

/-- Python truthiness of an optional string: `None` and `""` are falsy. -/
def pyTruthy : Option String → Bool
  | none => false
  | some s => !(s == "")

/-- send_weather_menu (src/bot.py:177-184): next session and the reply text. -/
def send_weather_menu (city : String) : Session × String :=
  (⟨some .choose_weather_type, some city⟩, "Город: " ++ city ++ "\nВыберите тип погоды:")

/-- The date part of a stored ISO timestamp (`timestamp[:10]`, src/bot.py:362-363). -/
def tsDate (s : String) : String :=
  String.mk (s.toList.take 10)

/-- Worker for `firstUniq`: keeps the first occurrence of each element. -/
def firstUniqAux (seen : List String) : List String → List String
  | [] => []
  | a :: rest =>
    if a ∈ seen then firstUniqAux seen rest
    else a :: firstUniqAux (a :: seen) rest

/-- First-occurrence-ordered distinct elements (key order of a Python Counter). -/
def firstUniq (l : List String) : List String :=
  firstUniqAux [] l

/-- Number of occurrences of `a` in `l`. -/
def countOf (l : List String) (a : String) : Nat :=
  (l.filter (fun b => b == a)).length

/-- Counter(cities).most_common(1)[0] (src/bot.py:357): the element with the
greatest count, first-encountered order breaking ties. -/
def mostCommon (l : List String) : Option (String × Nat) :=
  (firstUniq l).foldl
    (fun acc a =>
      match acc with
      | none => some (a, countOf l a)
      | some (b, n) => if n < countOf l a then some (a, countOf l a) else some (b, n))
    none

/-- The statistics reply of show_stats for a non-empty history (src/bot.py:358-364). -/
def statsMsg (history : List HistoryRecord) : String :=
  match mostCommon (history.map (fun h => h.city)), history.head?, history.getLast? with
  | some (c, n), some first, some last =>
    "📊 Статистика:\nВсего запросов: " ++ toString history.length ++
    "\nСамый частый город: " ++ c ++ " (" ++ toString n ++ " раз)\n" ++
    "Первый: " ++ tsDate first.timestamp ++ "\nПоследний: " ++ tsDate last.timestamp
  | _, _, _ => msgHistoryEmpty

/-- show_stats (src/bot.py:349-365): reply only, no state or store change. -/
def show_stats (sess : Session) (rec : UserRecord) : StepResult :=
  if rec.history.isEmpty then ⟨sess, rec, [msgHistoryEmpty], []⟩
  else ⟨sess, rec, [statsMsg rec.history], []⟩

/-- The CSV text exported by export_csv (src/bot.py:373-378); csv quoting of
fields containing separators is not reproduced (no claim depends on it). -/
def csvText (history : List HistoryRecord) : String :=
  String.intercalate "\r\n"
    ("Город,Температура (°C),Погода,Дата и время" ::
     history.map (fun h => h.city ++ "," ++ toString h.temp ++ "," ++ h.desc ++ "," ++ h.timestamp))
  ++ "\r\n"

/-- export_csv (src/bot.py:367-385): the document content is modelled as a reply. -/
def export_csv (sess : Session) (rec : UserRecord) : StepResult :=
  if rec.history.isEmpty then ⟨sess, rec, [msgNothingToExport], []⟩
  else ⟨sess, rec, [csvText rec.history], []⟩

/-- handle_main_menu (src/bot.py:186-217). -/
def handle_main_menu (sess : Session) (rec : UserRecord) (text : String) : StepResult :=
  if text == "🌤 Погода" then
    if pyTruthy rec.default_city then
      ⟨{ sess with state := some .choose_city_source }, rec,
       ["Ваш город по умолчанию: " ++ rec.default_city.getD "" ++ "\nВыберите:"], []⟩
    else
      ⟨{ sess with state := some .enter_city }, rec, [msgEnterCity], []⟩
  else if text == "⚙️ Установить город" then
    ⟨{ sess with state := some .set_default_city }, rec, [msgEnterDefaultCity], []⟩
  else if text == "🔁 Сравнить погоду" then
    ⟨{ sess with state := some .compare_cities }, rec, [msgEnterTwoCities], []⟩
  else if text == "📊 Статистика" then show_stats sess rec
  else if text == "📤 Экспорт CSV" then export_csv sess rec
  else ⟨sess, rec, [msgUnknown], []⟩

/-- The `state == "set_default_city"` branch of handle_message (src/bot.py:225-233). -/
def step_set_default (env : Env) (rec : UserRecord) (text : String) : StepResult :=
  match get_weather_now (env.current text) text with
  | some _ =>
    ⟨⟨none, none⟩, { rec with default_city := some text },
     ["✅ Город по умолчанию: " ++ text, msgMenu], [.weatherNow text]⟩
  | none => ⟨⟨none, none⟩, rec, [msgCityNotFound, msgMenu], [.weatherNow text]⟩

/-- The `state == "enter_city"` branch of handle_message (src/bot.py:236-242). -/
def step_enter_city (env : Env) (sess : Session) (rec : UserRecord) (text : String) :
    StepResult :=
  match get_weather_now (env.current text) text with
  | some d =>
    ⟨(send_weather_menu d.city).1, rec, [(send_weather_menu d.city).2], [.weatherNow text]⟩
  | none => ⟨sess, rec, [msgCityNotFound], [.weatherNow text]⟩

/-- The `state == "choose_city_source"` branch of handle_message (src/bot.py:245-265). -/
def step_choose_source (sess : Session) (rec : UserRecord) (text : String) : StepResult :=
  if text == "← Назад" then ⟨⟨none, none⟩, rec, [msgMenu], []⟩
  else if text == "Город по умолчанию" then
    if pyTruthy rec.default_city then
      let city := rec.default_city.getD ""
      ⟨(send_weather_menu city).1, rec, [(send_weather_menu city).2], []⟩
    else ⟨⟨none, none⟩, rec, [msgNoDefault, msgMenu], []⟩
  else if text == "Новый город" then
    ⟨{ sess with state := some .enter_city }, rec, [msgEnterCity], []⟩
  else ⟨sess, rec, [msgChooseFromMenu], []⟩

/-- The `state == "choose_weather_type"` branch of handle_message (src/bot.py:268-322).
Every sub-branch clears the session and reprompts the menu, except the unmatched
text sub-branch which returns early keeping the state (src/bot.py:316-318). -/
def step_choose_type (env : Env) (sess : Session) (rec : UserRecord) (text : String) :
    StepResult :=
  if !(pyTruthy sess.temp_city) then
    ⟨⟨none, none⟩, rec, [msgNoCity, msgMenu], []⟩
  else
    let city := sess.temp_city.getD ""
    if text == "← Назад" then ⟨⟨none, none⟩, rec, [msgMenu], []⟩
    else if text == "Сейчас" then
      match get_weather_now (env.current city) city with
      | some d =>
        ⟨⟨none, none⟩,
         { rec with history := rec.history ++ [⟨d.city, d.temp, d.desc, env.nowTs⟩] },
         [format_now_message d, msgMenu], [.weatherNow city]⟩
      | none => ⟨⟨none, none⟩, rec, [msgWeatherFail, msgMenu], [.weatherNow city]⟩
    else if text == "Вчера" then
      match get_yesterday_weather env.yesterday rec.history city with
      | some r =>
        ⟨⟨none, none⟩, rec,
         ["📅 <b>Вчерашняя погода — " ++ city ++ "</b>\n" ++
            format_now_message ⟨city, r.temp, r.temp, r.desc, 0, 0⟩, msgMenu],
         [.yesterdayLookup city]⟩
      | none => ⟨⟨none, none⟩, rec, [msgArchiveEmpty, msgMenu], [.yesterdayLookup city]⟩
    else if text == "На 5 дней" then
      match get_5_day_forecast env.dateOf (env.forecast city) with
      | some days =>
        if days.isEmpty then ⟨⟨none, none⟩, rec, [msgForecastFail, msgMenu], [.forecastReq city]⟩
        else ⟨⟨none, none⟩, rec, [format_forecast_message city days, msgMenu], [.forecastReq city]⟩
      | none => ⟨⟨none, none⟩, rec, [msgForecastFail, msgMenu], [.forecastReq city]⟩
    else ⟨sess, rec, [msgChooseFromMenu], []⟩

/-- The `state == "compare_cities"` branch of handle_message (src/bot.py:325-344);
both fetches are performed before the check, the failure reply does not say
which city failed. -/
def step_compare (env : Env) (sess : Session) (rec : UserRecord) (text : String) :
    StepResult :=
  match pySplit text with
  | [c1, c2] =>
    match get_weather_now (env.current c1) c1, get_weather_now (env.current c2) c2 with
    | some a, some b =>
      ⟨⟨none, none⟩, rec,
       ["🌡 <b>" ++ c1 ++ "</b>: " ++ fmt1 a.temp ++ "°C (" ++ a.desc ++ ")\n" ++
        "🌡 <b>" ++ c2 ++ "</b>: " ++ fmt1 b.temp ++ "°C (" ++ b.desc ++ ")\n" ++
        "Разница: <b>" ++ fmt1Signed (a.temp - b.temp) ++ "°C</b>", msgMenu],
       [.weatherNow c1, .weatherNow c2]⟩
    | _, _ =>
      ⟨⟨none, none⟩, rec, [msgOneNotFound, msgMenu], [.weatherNow c1, .weatherNow c2]⟩
  | _ => ⟨sess, rec, [msgExactlyTwo], []⟩

/-- handle_message (src/bot.py:219-347): dispatch on the session state; the text
argument is already stripped by unified_handler.  The session states are mutually
exclusive, so the Python if-chain is a match. -/
def handle_message (env : Env) (sess : Session) (rec : UserRecord) (text : String) :
    StepResult :=
  match sess.state with
  | some .set_default_city => step_set_default env rec text
  | some .enter_city => step_enter_city env sess rec text
  | some .choose_city_source => step_choose_source sess rec text
  | some .choose_weather_type => step_choose_type env sess rec text
  | some .compare_cities => step_compare env sess rec text
  | none => handle_main_menu sess rec text

/-- unified_handler (src/bot.py:392-400) together with start (src/bot.py:173-175):
commands bypass the state machine, `/start` clears the session. -/
def unified_handler (env : Env) (sess : Session) (rec : UserRecord) (input : String) :
    StepResult :=
  let text := pyStrip input
  if strStarts "/" text then
    if text == "/start" then ⟨⟨none, none⟩, rec, [msgStart], []⟩
    else ⟨sess, rec, [msgUnknown], []⟩
  else handle_message env sess rec text

/-- Modelled from the spec (§4.1): the forecast keeps, for each calendar day, the
first provider entry seen, in the order the days are first encountered; `seen`
is the set of dates already collected.  Used only to compare against the code's
`get_5_day_forecast`. -/
def specFirstPerDay (dateOf : Nat → String) :
    List ForecastItem → List String → List ForecastDay
  | [], _ => []
  | item :: rest, seen =>
    let date := dateOf item.dt
    if date ∈ seen then specFirstPerDay dateOf rest seen
    else ⟨date, item.temp, item.desc⟩ :: specFirstPerDay dateOf rest (date :: seen)

/-- C4: format_now_message selects exactly one clothing-advice clause, with closed
lower boundaries: t = 25 gives the light-clothing clause, t = 15 the light-jacket
clause, t = 5 the jacket-or-coat clause, t = -5 the warm-coat clause, and every
t < -5 the severe-cold clause. -/
theorem C4_advice_boundaries :
    (∀ t : ℚ, ∀ desc : String, adviceList t desc = adviceTemp t :: advicePrecip desc) ∧
    adviceTemp 25 = adviceLight ∧
    adviceTemp 15 = adviceLightJacket ∧
    adviceTemp 5 = adviceCoat ∧
    adviceTemp (-5) = adviceWarmCoat ∧
    ∀ t : ℚ, t < -5 → adviceTemp t = adviceSevere := by
  refine ⟨fun _ _ => rfl, ?_, ?_, ?_, ?_, ?_⟩
  · norm_num [adviceTemp]
  · norm_num [adviceTemp]
  · norm_num [adviceTemp]
  · norm_num [adviceTemp]
  · intro t ht
    have h1 : ¬(25 : ℚ) ≤ t := by linarith
    have h2 : ¬(15 : ℚ) ≤ t := by linarith
    have h3 : ¬(5 : ℚ) ≤ t := by linarith
    have h4 : ¬(-5 : ℚ) ≤ t := by linarith
    simp [adviceTemp, h1, h2, h3, h4]

/-- Witness for C4 at the concrete temperature -6. -/
theorem C4_advice_boundaries_witness : adviceTemp (-6) = adviceSevere :=
  C4_advice_boundaries.2.2.2.2.2 (-6) (by decide)

/-- C5: the precipitation clause of format_now_message is chosen independently of
the temperature clause; a rain keyword gives the rain clause, a snow keyword gives
the snow clause only when no rain keyword matched, and the rain and snow clauses
never appear together. -/
theorem C5_precip_clause (t : ℚ) (desc : String) :
    adviceList t desc = adviceTemp t :: advicePrecip desc ∧
    ((strIn "дождь" desc || strIn "ливень" desc) = true →
      advicePrecip desc = [adviceRain]) ∧
    ((strIn "дождь" desc || strIn "ливень" desc) = false →
      strIn "снег" desc = true → advicePrecip desc = [adviceSnow]) ∧
    ¬(adviceRain ∈ advicePrecip desc ∧ adviceSnow ∈ advicePrecip desc) := by
  refine ⟨rfl, ?_, ?_, ?_⟩
  · intro h; simp [advicePrecip, h]
  · intro h1 h2; simp [advicePrecip, h1, h2]
  · rintro ⟨hr, hs⟩
    by_cases h1 : (strIn "дождь" desc || strIn "ливень" desc) = true
    · have : advicePrecip desc = [adviceRain] := by simp [advicePrecip, h1]
      rw [this] at hs
      simp at hs
      exact (by decide : ¬adviceSnow = adviceRain) hs
    · by_cases h2 : strIn "снег" desc = true
      · have : advicePrecip desc = [adviceSnow] := by
          simp [advicePrecip, h1, h2]
        rw [this] at hr
        simp at hr
        exact (by decide : ¬adviceRain = adviceSnow) hr
      · have : advicePrecip desc = [] := by
          simp only [advicePrecip]
          rw [if_neg (by simp [h1]), if_neg (by simp [h2])]
        rw [this] at hr
        simp at hr

/-- Witness for C5 on a rain description and on a snow description. -/
theorem C5_precip_clause_witness :
    advicePrecip "сильный дождь" = [adviceRain] ∧
    advicePrecip "небольшой снег" = [adviceSnow] :=
  ⟨(C5_precip_clause 0 "сильный дождь").2.1 (by decide),
   (C5_precip_clause 0 "небольшой снег").2.2.1 (by decide) (by decide)⟩

/-- C9: in ChoosingWeatherType with no pending city stored, any input yields the
error reply, the session is cleared to Idle, the record is untouched and no
weather-data operation is performed. -/
theorem C9_missing_city (env : Env) (sess : Session) (rec : UserRecord) (text : String)
    (hs : sess.state = some StateTag.choose_weather_type)
    (hc : sess.temp_city = none) :
    handle_message env sess rec text =
      ⟨⟨none, none⟩, rec, [msgNoCity, msgMenu], []⟩ := by
  simp [handle_message, hs, step_choose_type, hc, pyTruthy]

/-- Witness for C9 at a concrete environment, session and input. -/
theorem C9_missing_city_witness :
    handle_message ⟨fun _ => none, fun _ => none, fun _ => "", "", ""⟩
        ⟨some StateTag.choose_weather_type, none⟩ ⟨none, []⟩ "Сейчас" =
      ⟨⟨none, none⟩, ⟨none, []⟩, [msgNoCity, msgMenu], []⟩ :=
  C9_missing_city ⟨fun _ => none, fun _ => none, fun _ => "", "", ""⟩
    ⟨some StateTag.choose_weather_type, none⟩ ⟨none, []⟩ "Сейчас" rfl rfl

/-- C8: a command-prefixed input bypasses the state machine in every session
state: "/start" clears the session to Idle, any other command is answered by the
unknown-command reply with the session left unchanged. -/
theorem C8_commands (env : Env) (sess : Session) (rec : UserRecord) (input : String)
    (hcmd : strStarts "/" (pyStrip input) = true) :
    (pyStrip input = "/start" →
      unified_handler env sess rec input = ⟨⟨none, none⟩, rec, [msgStart], []⟩) ∧
    (pyStrip input ≠ "/start" →
      unified_handler env sess rec input = ⟨sess, rec, [msgUnknown], []⟩) := by
  constructor
  · intro h
    have h2 : strStarts "/" "/start" = true := by rw [← h]; exact hcmd
    simp [unified_handler, h, h2]
  · intro h
    have hb : (pyStrip input == "/start") = false := by
      simpa using h
    simp [unified_handler, hcmd, hb]

/-- Witness for C8: "/weather" in a mid-conversation state is answered by the
unknown-command reply without touching the session. -/
theorem C8_commands_witness :
    unified_handler ⟨fun _ => none, fun _ => none, fun _ => "", "", ""⟩
        ⟨some StateTag.enter_city, some "X"⟩ ⟨none, []⟩ " /weather " =
      ⟨⟨some StateTag.enter_city, some "X"⟩, ⟨none, []⟩, [msgUnknown], []⟩ :=
  (C8_commands ⟨fun _ => none, fun _ => none, fun _ => "", "", ""⟩
    ⟨some StateTag.enter_city, some "X"⟩ ⟨none, []⟩ " /weather " (by decide)).2 (by decide)

/-- C6: in AwaitingCityForLookup (state "enter_city"), a successful fetch stores
the validated city as the pending location and moves to ChoosingWeatherType; a
failed fetch reports not-found and leaves the session unchanged (still
"enter_city", pending location untouched). -/
theorem C6_lookup_validation (env : Env) (sess : Session) (rec : UserRecord)
    (text : String) (hs : sess.state = some StateTag.enter_city) :
    (∀ p, env.current text = some p →
      handle_message env sess rec text =
        ⟨⟨some StateTag.choose_weather_type, some text⟩, rec,
         ["Город: " ++ text ++ "\nВыберите тип погоды:"], [ApiCall.weatherNow text]⟩) ∧
    (env.current text = none →
      handle_message env sess rec text =
        ⟨sess, rec, [msgCityNotFound], [ApiCall.weatherNow text]⟩) := by
  constructor
  · intro p hp
    simp [handle_message, hs, step_enter_city, get_weather_now, hp, send_weather_menu]
  · intro hp
    simp [handle_message, hs, step_enter_city, get_weather_now, hp]

/-- Witness for C6: a found city and a not-found city. -/
theorem C6_lookup_validation_witness :
    handle_message
        ⟨fun c => if c == "Париж" then some ⟨20, 19, "ясно", 50, 3⟩ else none,
         fun _ => none, fun _ => "", "", ""⟩
        ⟨some StateTag.enter_city, none⟩ ⟨none, []⟩ "Париж" =
      ⟨⟨some StateTag.choose_weather_type, some "Париж"⟩, ⟨none, []⟩,
       ["Город: Париж\nВыберите тип погоды:"], [ApiCall.weatherNow "Париж"]⟩ :=
  (C6_lookup_validation
    ⟨fun c => if c == "Париж" then some ⟨20, 19, "ясно", 50, 3⟩ else none,
     fun _ => none, fun _ => "", "", ""⟩
    ⟨some StateTag.enter_city, none⟩ ⟨none, []⟩ "Париж" rfl).1
    ⟨20, 19, "ясно", 50, 3⟩ (by decide)

/-- C7: in AwaitingCityPairForCompare, a token count other than two reprompts and
keeps the state; with two tokens and either fetch failing, the reply is the one
generic not-found message (the same constant whichever side failed), no history
is written, and the session resets to Idle. -/
theorem C7_compare_errors (env : Env) (sess : Session) (rec : UserRecord)
    (text : String) (hs : sess.state = some StateTag.compare_cities) :
    ((pySplit text).length ≠ 2 →
      handle_message env sess rec text = ⟨sess, rec, [msgExactlyTwo], []⟩) ∧
    (∀ c1 c2, pySplit text = [c1, c2] →
      (env.current c1 = none ∨ env.current c2 = none) →
      handle_message env sess rec text =
        ⟨⟨none, none⟩, rec, [msgOneNotFound, msgMenu],
         [ApiCall.weatherNow c1, ApiCall.weatherNow c2]⟩) := by
  constructor
  · intro hlen
    rcases hsp : pySplit text with _ | ⟨a, _ | ⟨b, _ | ⟨c, l⟩⟩⟩
    · simp [handle_message, hs, step_compare, hsp]
    · simp [handle_message, hs, step_compare, hsp]
    · exact absurd (by rw [hsp]; rfl) hlen
    · simp [handle_message, hs, step_compare, hsp]
  · intro c1 c2 hsp hor
    rcases hor with h1 | h2
    · cases h2 : env.current c2 <;>
        simp [handle_message, hs, step_compare, hsp, get_weather_now, h1, h2]
    · cases h1 : env.current c1 <;>
        simp [handle_message, hs, step_compare, hsp, get_weather_now, h1, h2]

/-- Witness for C7: a wrong token count and a two-token pair with one unknown city. -/
theorem C7_compare_errors_witness :
    handle_message
        ⟨fun c => if c == "Париж" then some ⟨20, 19, "ясно", 50, 3⟩ else none,
         fun _ => none, fun _ => "", "", ""⟩
        ⟨some StateTag.compare_cities, none⟩ ⟨none, []⟩ "Париж Нигде" =
      ⟨⟨none, none⟩, ⟨none, []⟩, [msgOneNotFound, msgMenu],
       [ApiCall.weatherNow "Париж", ApiCall.weatherNow "Нигде"]⟩ ∧
    handle_message
        ⟨fun c => if c == "Париж" then some ⟨20, 19, "ясно", 50, 3⟩ else none,
         fun _ => none, fun _ => "", "", ""⟩
        ⟨some StateTag.compare_cities, none⟩ ⟨none, []⟩ "Париж" =
      ⟨⟨some StateTag.compare_cities, none⟩, ⟨none, []⟩, [msgExactlyTwo], []⟩ :=
  ⟨(C7_compare_errors
      ⟨fun c => if c == "Париж" then some ⟨20, 19, "ясно", 50, 3⟩ else none,
       fun _ => none, fun _ => "", "", ""⟩
      ⟨some StateTag.compare_cities, none⟩ ⟨none, []⟩ "Париж Нигде" rfl).2
      "Париж" "Нигде" (by decide) (Or.inr (by decide)),
   (C7_compare_errors
      ⟨fun c => if c == "Париж" then some ⟨20, 19, "ясно", 50, 3⟩ else none,
       fun _ => none, fun _ => "", "", ""⟩
      ⟨some StateTag.compare_cities, none⟩ ⟨none, []⟩ "Париж" rfl).1 (by decide)⟩

/-- C10: when the "yesterday" branch finds a matching record, the reply is the
header plus the current-weather template applied to a synthesized reading whose
feels-like equals the stored temperature and whose humidity and wind speed are 0;
the matched record's city equals the pending city. -/
theorem C10_yesterday_message (env : Env) (sess : Session) (rec : UserRecord)
    (city : String) (r : HistoryRecord)
    (hs : sess.state = some StateTag.choose_weather_type)
    (hc : sess.temp_city = some city) (hne : city ≠ "")
    (hr : get_yesterday_weather env.yesterday rec.history city = some r) :
    r.city = city ∧
    handle_message env sess rec "Вчера" =
      ⟨⟨none, none⟩, rec,
       ["📅 <b>Вчерашняя погода — " ++ city ++ "</b>\n" ++
          format_now_message ⟨r.city, r.temp, r.temp, r.desc, 0, 0⟩, msgMenu],
       [ApiCall.yesterdayLookup city]⟩ := by
  have hm : yMatch env.yesterday city r = true := List.find?_some hr
  have hcity : r.city = city := by
    have := (Bool.and_eq_true _ _).mp hm
    exact beq_iff_eq.mp this.1
  have hb : (city == "") = false := beq_eq_false_iff_ne.mpr hne
  refine ⟨hcity, ?_⟩
  simp [handle_message, hs, step_choose_type, hc, pyTruthy, hb, hr, hcity]

/-- Witness for C10 at a concrete history containing a matching entry. -/
theorem C10_yesterday_message_witness :
    handle_message
        ⟨fun _ => none, fun _ => none, fun _ => "", "", "2026-10-11"⟩
        ⟨some StateTag.choose_weather_type, some "Париж"⟩
        ⟨none, [⟨"Париж", 7, "дождь", "2026-10-11T08:30:00"⟩]⟩ "Вчера" =
      ⟨⟨none, none⟩, ⟨none, [⟨"Париж", 7, "дождь", "2026-10-11T08:30:00"⟩]⟩,
       ["📅 <b>Вчерашняя погода — Париж</b>\n" ++
          format_now_message ⟨"Париж", 7, 7, "дождь", 0, 0⟩, msgMenu],
       [ApiCall.yesterdayLookup "Париж"]⟩ :=
  (C10_yesterday_message
    ⟨fun _ => none, fun _ => none, fun _ => "", "", "2026-10-11"⟩
    ⟨some StateTag.choose_weather_type, some "Париж"⟩
    ⟨none, [⟨"Париж", 7, "дождь", "2026-10-11T08:30:00"⟩]⟩ "Париж"
    ⟨"Париж", 7, "дождь", "2026-10-11T08:30:00"⟩
    rfl rfl (by decide) (by decide)).2

/-- A successful find? splits the list at the found element: everything before it
fails the predicate. -/
theorem findSomeSplit {α : Type} (p : α → Bool) :
    ∀ (l : List α) (r : α), l.find? p = some r →
      ∃ s1 s2, l = s1 ++ r :: s2 ∧ p r = true ∧ ∀ x ∈ s1, p x = false := by
  intro l
  induction l with
  | nil => intro r h; simp [List.find?] at h
  | cons a as ih =>
    intro r h
    cases hpa : p a with
    | true =>
      rw [List.find?_cons_of_pos _ hpa] at h
      obtain rfl : a = r := by injection h
      exact ⟨[], as, rfl, hpa, by simp⟩
    | false =>
      rw [List.find?_cons_of_neg _ (by simp [hpa])] at h
      obtain ⟨s1, s2, heq, hr, hall⟩ := ih r h
      refine ⟨a :: s1, s2, by rw [heq]; rfl, hr, ?_⟩
      intro x hx
      rcases List.mem_cons.mp hx with rfl | hx2
      · exact hpa
      · exact hall x hx2

/-- C2: get_yesterday_weather returns NotFound on an empty history and whenever no
entry matches; when it returns an entry, that entry matches (exact city and
yesterday-date prefix) and is the most recent match: every later entry fails the
match (reverse scan, first match wins). -/
theorem C2_yesterday_lookup (y c : String) (h : List HistoryRecord) :
    get_yesterday_weather y [] c = none ∧
    ((∀ r ∈ h, yMatch y c r = false) → get_yesterday_weather y h c = none) ∧
    ∀ r, get_yesterday_weather y h c = some r →
      yMatch y c r = true ∧
      ∃ s1 s2, h = s1 ++ r :: s2 ∧ ∀ x ∈ s2, yMatch y c x = false := by
  refine ⟨rfl, ?_, ?_⟩
  · intro hall
    apply List.find?_eq_none.mpr
    intro x hx
    simp [hall x (List.mem_reverse.mp hx)]
  · intro r hr
    obtain ⟨s1, s2, heq, hm, hall⟩ := findSomeSplit (yMatch y c) h.reverse r hr
    refine ⟨hm, s2.reverse, s1.reverse, ?_, ?_⟩
    · have : h.reverse.reverse = (s1 ++ r :: s2).reverse := by rw [heq]
      simpa using this
    · intro x hx
      exact hall x (List.mem_reverse.mp hx)

/-- Witness for C2: a history with two same-location entries on yesterday's date;
the later one is returned and everything after it fails the match. -/
theorem C2_yesterday_lookup_witness :
    yMatch "2026-10-11" "A" ⟨"A", 2, "снег", "2026-10-11T18:00"⟩ = true ∧
    ∃ s1 s2,
      [⟨"A", 5, "ясно", "2026-10-10T12:00"⟩, ⟨"A", 1, "дождь", "2026-10-11T09:00"⟩,
       (⟨"A", 2, "снег", "2026-10-11T18:00"⟩ : HistoryRecord),
       ⟨"B", 3, "ясно", "2026-10-11T19:00"⟩]
        = s1 ++ (⟨"A", 2, "снег", "2026-10-11T18:00"⟩ : HistoryRecord) :: s2 ∧
      ∀ x ∈ s2, yMatch "2026-10-11" "A" x = false :=
  (C2_yesterday_lookup "2026-10-11" "A"
    [⟨"A", 5, "ясно", "2026-10-10T12:00"⟩, ⟨"A", 1, "дождь", "2026-10-11T09:00"⟩,
     ⟨"A", 2, "снег", "2026-10-11T18:00"⟩, ⟨"B", 3, "ясно", "2026-10-11T19:00"⟩]).2.2
    ⟨"A", 2, "снег", "2026-10-11T18:00"⟩ (by decide)

/-- specFirstPerDay only consults membership of the seen set. -/
theorem specFirstPerDay_seen_congr (dateOf : Nat → String) :
    ∀ (items : List ForecastItem) (s1 s2 : List String),
      (∀ x, x ∈ s1 ↔ x ∈ s2) →
      specFirstPerDay dateOf items s1 = specFirstPerDay dateOf items s2 := by
  intro items
  induction items with
  | nil => intro s1 s2 _; rfl
  | cons item rest ih =>
    intro s1 s2 hmem
    simp only [specFirstPerDay]
    by_cases hd : dateOf item.dt ∈ s1
    · rw [if_pos hd, if_pos ((hmem _).mp hd)]
      exact ih s1 s2 hmem
    · rw [if_neg hd, if_neg (fun hc => hd ((hmem _).mpr hc))]
      congr 1
      apply ih
      intro x
      simp only [List.mem_cons]
      exact or_congr Iff.rfl (hmem x)

/-- The forecast loop is the spec-side first-per-day bucketing truncated to the
budget of remaining days. -/
theorem forecastLoop_spec (dateOf : Nat → String) :
    ∀ (items : List ForecastItem) (days : List ForecastDay), days.length < 5 →
      forecastLoop dateOf items days =
        days ++ (specFirstPerDay dateOf items
                  (days.map ForecastDay.date)).take (5 - days.length) := by
  intro items
  induction items with
  | nil => intro days _; simp [forecastLoop, specFirstPerDay]
  | cons item rest ih =>
    intro days hlen
    simp only [forecastLoop, specFirstPerDay]
    by_cases hd : dateOf item.dt ∈ days.map ForecastDay.date
    · have hany : (days.any fun d => d.date == dateOf item.dt) = true := by
        rw [List.any_eq_true]
        obtain ⟨d, hdmem, hdate⟩ := List.mem_map.mp hd
        exact ⟨d, hdmem, by simp [hdate]⟩
      rw [if_pos hd, hany]
      simp only [if_true]
      rw [if_neg (by omega)]
      exact ih days hlen
    · have hany : (days.any fun d => d.date == dateOf item.dt) = false := by
        rw [List.any_eq_false]
        intro d hdmem
        simp only [beq_iff_eq]
        intro hc
        exact hd (List.mem_map.mpr ⟨d, hdmem, hc⟩)
      rw [if_neg hd, hany]
      rw [if_neg Bool.false_ne_true]
      by_cases hfull : 5 ≤ (days ++ [(⟨dateOf item.dt, item.temp, item.desc⟩ : ForecastDay)]).length
      · rw [if_pos hfull]
        have h4 : days.length = 4 := by
          simp only [List.length_append, List.length_singleton] at hfull
          omega
        have h51 : 5 - days.length = 1 := by omega
        rw [h51]
        simp [List.take_succ_cons]
      · rw [if_neg hfull]
        have hlt : (days ++ [(⟨dateOf item.dt, item.temp, item.desc⟩ : ForecastDay)]).length < 5 := by
          omega
        rw [ih _ hlt]
        have hmap : (days ++ [(⟨dateOf item.dt, item.temp, item.desc⟩ : ForecastDay)]).map
            ForecastDay.date = days.map ForecastDay.date ++ [dateOf item.dt] := by
          simp
        rw [hmap]
        rw [specFirstPerDay_seen_congr dateOf rest
          (days.map ForecastDay.date ++ [dateOf item.dt])
          (dateOf item.dt :: days.map ForecastDay.date)
          (by intro x; simp [List.mem_append, List.mem_cons, or_comm])]
        have hsub : (days ++ [(⟨dateOf item.dt, item.temp, item.desc⟩ : ForecastDay)]).length
            = days.length + 1 := by simp
        rw [hsub]
        have htake : 5 - days.length = (5 - (days.length + 1)) + 1 := by omega
        rw [htake, List.take_succ_cons]
        simp

/-- The days produced by specFirstPerDay carry pairwise-distinct dates, none of
which was already seen. -/
theorem specFirstPerDay_sound (dateOf : Nat → String) :
    ∀ (items : List ForecastItem) (seen : List String),
      ((specFirstPerDay dateOf items seen).map ForecastDay.date).Nodup ∧
      ∀ x ∈ (specFirstPerDay dateOf items seen).map ForecastDay.date, x ∉ seen := by
  intro items
  induction items with
  | nil => intro seen; simp [specFirstPerDay]
  | cons item rest ih =>
    intro seen
    simp only [specFirstPerDay]
    by_cases hd : dateOf item.dt ∈ seen
    · rw [if_pos hd]; exact ih seen
    · rw [if_neg hd]
      obtain ⟨ihn, ihs⟩ := ih (dateOf item.dt :: seen)
      constructor
      · simp only [List.map_cons, List.nodup_cons]
        exact ⟨fun hc => (ihs _ hc) (List.mem_cons_self _ _), ihn⟩
      · intro x hx
        simp only [List.map_cons, List.mem_cons] at hx
        rcases hx with rfl | hx2
        · exact hd
        · exact fun hc => (ihs x hx2) (List.mem_cons_of_mem _ hc)

/-- Every day kept by specFirstPerDay is built from the first provider entry
carrying its date. -/
theorem specFirstPerDay_firstEntry (dateOf : Nat → String) :
    ∀ (items : List ForecastItem) (seen : List String) (d : ForecastDay),
      d ∈ specFirstPerDay dateOf items seen →
      ∃ s1 item s2, items = s1 ++ item :: s2 ∧
        d = ⟨dateOf item.dt, item.temp, item.desc⟩ ∧
        ∀ j ∈ s1, dateOf j.dt ≠ d.date := by
  intro items
  induction items with
  | nil => intro seen d hd; simp [specFirstPerDay] at hd
  | cons item rest ih =>
    intro seen d hd
    simp only [specFirstPerDay] at hd
    by_cases hmem : dateOf item.dt ∈ seen
    · rw [if_pos hmem] at hd
      obtain ⟨s1, it, s2, heq, hdeq, hall⟩ := ih seen d hd
      have hdnot : d.date ∉ seen :=
        (specFirstPerDay_sound dateOf rest seen).2 d.date (List.mem_map.mpr ⟨d, hd, rfl⟩)
      refine ⟨item :: s1, it, s2, by rw [heq]; rfl, hdeq, ?_⟩
      intro j hj
      rcases List.mem_cons.mp hj with rfl | hj2
      · exact fun hc => hdnot (hc ▸ hmem)
      · exact hall j hj2
    · rw [if_neg hmem] at hd
      rcases List.mem_cons.mp hd with rfl | hd2
      · exact ⟨[], item, rest, rfl, rfl, by simp⟩
      · obtain ⟨s1, it, s2, heq, hdeq, hall⟩ := ih (dateOf item.dt :: seen) d hd2
        have hdnot : d.date ∉ dateOf item.dt :: seen :=
          (specFirstPerDay_sound dateOf rest _).2 d.date (List.mem_map.mpr ⟨d, hd2, rfl⟩)
        refine ⟨item :: s1, it, s2, by rw [heq]; rfl, hdeq, ?_⟩
        intro j hj
        rcases List.mem_cons.mp hj with rfl | hj2
        · exact fun hc => hdnot (by rw [← hc]; exact List.mem_cons_self _ _)
        · exact hall j hj2

/-- C1: a successful get_5_day_forecast equals the spec-side bucketing (first
provider entry per calendar day, in first-encountered order) truncated to 5,
hence has at most 5 entries, pairwise-distinct dates, and each entry comes from
the first provider entry carrying its date. -/
theorem C1_forecast_days (dateOf : Nat → String) (items : List ForecastItem)
    (res : List ForecastDay)
    (h : get_5_day_forecast dateOf (some items) = some res) :
    res = (specFirstPerDay dateOf items []).take 5 ∧
    res.length ≤ 5 ∧
    (res.map ForecastDay.date).Nodup ∧
    ∀ d ∈ res, ∃ s1 item s2, items = s1 ++ item :: s2 ∧
      d = ⟨dateOf item.dt, item.temp, item.desc⟩ ∧
      ∀ j ∈ s1, dateOf j.dt ≠ d.date := by
  have hres : res = (forecastLoop dateOf items []).take 5 := by
    have := h.symm
    simpa [get_5_day_forecast] using this
  have hloop : forecastLoop dateOf items [] =
      (specFirstPerDay dateOf items []).take 5 := by
    have := forecastLoop_spec dateOf items [] (by simp)
    simpa using this
  have hres2 : res = (specFirstPerDay dateOf items []).take 5 := by
    rw [hres, hloop, List.take_take, min_self]
  refine ⟨hres2, ?_, ?_, ?_⟩
  · rw [hres2, List.length_take]
    exact min_le_left _ _
  · rw [hres2, List.map_take]
    exact List.Nodup.sublist (List.take_sublist _ _)
      (specFirstPerDay_sound dateOf items []).1
  · intro d hd
    apply specFirstPerDay_firstEntry dateOf items [] d
    rw [hres2] at hd
    exact List.take_subset _ _ hd

/-- Witness for C1: six 3-hour entries over three days; the result keeps the
first entry of each day in order. -/
theorem C1_forecast_days_witness :
    ([(⟨"d1", 1, "a"⟩ : ForecastDay), ⟨"d2", 3, "c"⟩, ⟨"d3", 5, "e"⟩] :
        List ForecastDay).length ≤ 5 ∧
    (([(⟨"d1", 1, "a"⟩ : ForecastDay), ⟨"d2", 3, "c"⟩, ⟨"d3", 5, "e"⟩]).map
        ForecastDay.date).Nodup :=
  have h := C1_forecast_days
    (fun n => if n ≤ 1 then "d1" else if n ≤ 3 then "d2" else "d3")
    [⟨0, 1, "a"⟩, ⟨1, 2, "b"⟩, ⟨2, 3, "c"⟩, ⟨3, 4, "d"⟩, ⟨4, 5, "e"⟩, ⟨5, 6, "f"⟩]
    [⟨"d1", 1, "a"⟩, ⟨"d2", 3, "c"⟩, ⟨"d3", 5, "e"⟩] (by decide)
  ⟨h.2.1, h.2.2.1⟩

/-- No main-menu action touches the user's stored record. -/
theorem handle_main_menu_record (sess : Session) (rec : UserRecord) (text : String) :
    (handle_main_menu sess rec text).record = rec := by
  unfold handle_main_menu show_stats export_csv
  split_ifs <;> rfl

/-- Setting a default city never touches the history. -/
theorem step_set_default_history (env : Env) (rec : UserRecord) (text : String) :
    (step_set_default env rec text).record.history = rec.history := by
  unfold step_set_default get_weather_now
  cases env.current text <;> rfl

/-- City lookup never touches the record. -/
theorem step_enter_city_record (env : Env) (sess : Session) (rec : UserRecord)
    (text : String) :
    (step_enter_city env sess rec text).record = rec := by
  unfold step_enter_city get_weather_now
  cases env.current text <;> rfl

/-- The source-choice menu never touches the record. -/
theorem step_choose_source_record (sess : Session) (rec : UserRecord) (text : String) :
    (step_choose_source sess rec text).record = rec := by
  unfold step_choose_source
  split_ifs <;> rfl

/-- Comparison never touches the record. -/
theorem step_compare_record (env : Env) (sess : Session) (rec : UserRecord)
    (text : String) :
    (step_compare env sess rec text).record = rec := by
  rcases hsp : pySplit text with _ | ⟨a, _ | ⟨b, _ | ⟨c, l⟩⟩⟩
  · simp [step_compare, hsp]
  · simp [step_compare, hsp]
  · cases h1 : env.current a <;> cases h2 : env.current b <;>
      simp [step_compare, hsp, get_weather_now, h1, h2]
  · simp [step_compare, hsp]

/-- The weather-type branch leaves the history unchanged except in the "Сейчас"
sub-branch after a successful fetch, where exactly the fetched event is appended. -/
theorem step_choose_type_history (env : Env) (sess : Session) (rec : UserRecord)
    (text : String) :
    (step_choose_type env sess rec text).record.history = rec.history ∨
    ∃ c p, sess.temp_city = some c ∧ text = "Сейчас" ∧ env.current c = some p ∧
      (step_choose_type env sess rec text).record.history
        = rec.history ++ [⟨c, p.temp, p.desc, env.nowTs⟩] := by
  by_cases ht : pyTruthy sess.temp_city = true
  case neg =>
    left
    have ht2 : pyTruthy sess.temp_city = false := by simpa using ht
    simp [step_choose_type, ht2]
  case pos =>
    have hnb : (!pyTruthy sess.temp_city) = false := by rw [ht]; rfl
    by_cases h1 : (text == "← Назад") = true
    · left; simp [step_choose_type, hnb, h1]
    · by_cases h2 : (text == "Сейчас") = true
      · have htext : text = "Сейчас" := by simpa using h2
        obtain ⟨c, hc⟩ : ∃ c, sess.temp_city = some c := by
          cases h : sess.temp_city
          · rw [h] at ht; simp [pyTruthy] at ht
          · exact ⟨_, rfl⟩
        cases hcur : env.current (sess.temp_city.getD "") with
        | some p =>
          right
          have hcur2 : env.current c = some p := by rw [hc] at hcur; simpa using hcur
          have hptc : pyTruthy (some c) = true := by rw [← hc]; exact ht
          refine ⟨c, p, hc, htext, hcur2, ?_⟩
          simp [step_choose_type, hc, hptc, h1, h2, get_weather_now, hcur2]
        | none =>
          left
          simp [step_choose_type, hnb, h1, h2, get_weather_now, hcur]
      · by_cases h3 : (text == "Вчера") = true
        · left
          cases hy : get_yesterday_weather env.yesterday rec.history
              (sess.temp_city.getD "") <;>
            simp [step_choose_type, hnb, h1, h2, h3, hy]
        · by_cases h4 : (text == "На 5 дней") = true
          · left
            cases hf : get_5_day_forecast env.dateOf
                (env.forecast (sess.temp_city.getD "")) with
            | some days =>
              by_cases he : days.isEmpty <;>
                simp [step_choose_type, hnb, h1, h2, h3, h4, hf, he]
            | none => simp [step_choose_type, hnb, h1, h2, h3, h4, hf]
          · left
            simp [step_choose_type, hnb, h1, h2, h3, h4]

/-- Appending one upper bound to a chain keeps it a chain. -/
theorem chainAppendOne {α : Type} (R : α → α → Prop) :
    ∀ (l : List α) (e : α), List.Chain' R l → (∀ x ∈ l, R x e) →
      List.Chain' R (l ++ [e]) := by
  intro l
  induction l with
  | nil => intro e _ _; exact List.chain'_singleton e
  | cons a as ih =>
    intro e hch hall
    cases as with
    | nil =>
      have hae : R a e := hall a (by simp)
      simp [List.chain'_cons, hae]
    | cons b bs =>
      rw [List.cons_append]
      rcases List.chain'_cons.mp hch with ⟨hab, htail⟩
      refine List.chain'_cons.mpr ⟨hab, ?_⟩
      have := ih e htail (fun x hx => hall x (List.mem_cons_of_mem _ hx))
      simpa using this

/-- The history effect of one full step: unchanged, or exactly one event appended
at the end by the ChoosingWeatherType "Сейчас" branch after a successful fetch. -/
theorem unified_handler_history (env : Env) (sess : Session) (rec : UserRecord)
    (input : String) :
    (unified_handler env sess rec input).record.history = rec.history ∨
    ∃ c p, sess.state = some StateTag.choose_weather_type ∧
      sess.temp_city = some c ∧ pyStrip input = "Сейчас" ∧ env.current c = some p ∧
      (unified_handler env sess rec input).record.history
        = rec.history ++ [⟨c, p.temp, p.desc, env.nowTs⟩] := by
  by_cases hcmd : strStarts "/" (pyStrip input) = true
  · by_cases hstart : (pyStrip input == "/start") = true
    · left; simp [unified_handler, hcmd, hstart]
    · left; simp [unified_handler, hcmd, hstart]
  · have hnc : strStarts "/" (pyStrip input) = false := by simpa using hcmd
    have hh : unified_handler env sess rec input
        = handle_message env sess rec (pyStrip input) := by
      simp [unified_handler, hnc]
    rw [hh]
    cases hs : sess.state with
    | none =>
      left
      simp [handle_message, hs, handle_main_menu_record]
    | some st =>
      cases st with
      | set_default_city =>
        left
        simp [handle_message, hs, step_set_default_history]
      | enter_city =>
        left
        simp [handle_message, hs, step_enter_city_record]
      | choose_city_source =>
        left
        simp [handle_message, hs, step_choose_source_record]
      | compare_cities =>
        left
        simp [handle_message, hs, step_compare_record]
      | choose_weather_type =>
        rcases step_choose_type_history env sess rec (pyStrip input) with
          h | ⟨c, p, hc, htext, hp, happ⟩
        · left; simpa [handle_message, hs] using h
        · right
          exact ⟨c, p, rfl, hc, htext, hp, by simpa [handle_message, hs] using happ⟩

/-- C3: one message-handling step leaves the user's stored history unchanged or
extends it by exactly one event appended at its end; the append happens only in
the ChoosingWeatherType "now" branch after a successful fetch, carries the
fetched data stamped with the step's clock, and under a clock not earlier than
all stored timestamps the per-user timestamps stay non-decreasing in insertion
order. -/
theorem C3_history_append (env : Env) (sess : Session) (rec : UserRecord)
    (input : String) :
    ((unified_handler env sess rec input).record.history = rec.history ∨
      ∃ c p, sess.state = some StateTag.choose_weather_type ∧
        sess.temp_city = some c ∧ pyStrip input = "Сейчас" ∧
        env.current c = some p ∧
        (unified_handler env sess rec input).record.history
          = rec.history ++ [⟨c, p.temp, p.desc, env.nowTs⟩]) ∧
    ((∀ e ∈ rec.history, tsLe e.timestamp env.nowTs = true) →
      List.Chain' (fun a b => tsLe a.timestamp b.timestamp = true) rec.history →
      List.Chain' (fun a b => tsLe a.timestamp b.timestamp = true)
        (unified_handler env sess rec input).record.history) := by
  refine ⟨unified_handler_history env sess rec input, ?_⟩
  intro hle hch
  rcases unified_handler_history env sess rec input with heq | ⟨c, p, _, _, _, _, heq⟩
  · rw [heq]; exact hch
  · rw [heq]
    exact chainAppendOne _ rec.history _ hch (fun x hx => hle x hx)

/-- Witness for C3: a "Сейчас" step appending to a one-event history keeps the
timestamps sorted. -/
theorem C3_history_append_witness :
    List.Chain' (fun a b => tsLe a.timestamp b.timestamp = true)
      ((unified_handler
          ⟨fun c => if c == "A" then some ⟨1, 1, "ясно", 50, 2⟩ else none,
           fun _ => none, fun _ => "", "2026-10-12T10:00:00", "2026-10-11"⟩
          ⟨some StateTag.choose_weather_type, some "A"⟩
          ⟨none, [⟨"A", 5, "дождь", "2026-10-11T09:00:00"⟩]⟩
          "Сейчас").record.history) :=
  (C3_history_append
    ⟨fun c => if c == "A" then some ⟨1, 1, "ясно", 50, 2⟩ else none,
     fun _ => none, fun _ => "", "2026-10-12T10:00:00", "2026-10-11"⟩
    ⟨some StateTag.choose_weather_type, some "A"⟩
    ⟨none, [⟨"A", 5, "дождь", "2026-10-11T09:00:00"⟩]⟩
    "Сейчас").2 (by decide) (List.chain'_singleton _)
